import Mathlib

/-!
Verification development for `pkg/pumpfun/create.go`

A shallow embedding of the token-creation flow of the pump.fun client:
`SetDevnetMode`, `getBondingCurveAndAssociatedBondingCurve`,
`getComputUnitPriceInstr` and `CreateToken`.

* Package-level variables are an explicit `Globals` record that every function
  of the package receives.
* Everything the package imports (address derivation, RPC calls, the
  transaction builder, the signer, the submitter) and the package's own
  `getBuyInstructions` / `SolToLamp`, which live in other files, are fields of
  an `Env` record; every theorem quantifies over all environments.
* A run yields a `Run`: the ordered trace of external calls, each with a flag
  telling whether it succeeded, and an `Outcome` that is either the returned
  value or a Go runtime panic.
-/

namespace Pump

/-! ## Keys and base58 -/

/-- Go `solana.PublicKey`, a `[32]byte`. -/
structure PublicKey where
  bytes : List Nat
  deriving DecidableEq, Repr

/-- Go `solana.PrivateKey`, a byte slice holding the 32-byte seed followed by
the 32-byte public key (ed25519 layout). -/
structure PrivateKey where
  bytes : List Nat
  deriving DecidableEq, Repr

/-- Go `PrivateKey.PublicKey()`: copies `priv[32:]` into a fresh zeroed
`[32]byte`. Keys are taken to hold at least 32 bytes (shorter ones make the Go
slice expression panic). -/
def PrivateKey.PublicKey (k : PrivateKey) : PublicKey :=
  let pub := (k.bytes.drop 32).take 32
  ⟨pub ++ List.replicate (32 - pub.length) 0⟩

/-- Go `solana.Wallet`. -/
structure Wallet where
  PrivateKey : PrivateKey
  deriving DecidableEq, Repr

/-- Go `Wallet.PublicKey()`: `w.PrivateKey.PublicKey()`. -/
def Wallet.PublicKey (w : Wallet) : PublicKey :=
  w.PrivateKey.PublicKey

/-- Go `PublicKey.Equals`: array equality. -/
def PublicKey.Equals (p pb : PublicKey) : Bool :=
  decide (p = pb)

/-- Go `PublicKey.Bytes()`. -/
def PublicKey.Bytes (p : PublicKey) : List Nat :=
  p.bytes

/-- The bitcoin base58 alphabet used by Solana. -/
def base58Alphabet : List Char :=
  "123456789ABCDEFGHJKLMNPQRSTUVWXYZabcdefghijkmnopqrstuvwxyz".toList

/-- Value of one base58 digit, `none` for a character outside the alphabet. -/
def base58Digit (c : Char) : Option Nat :=
  let i := base58Alphabet.indexOf c
  if i < 58 then some i else none

/-- Reads base58 digits, most significant first, into a number. -/
def base58ToNat : List Char → Nat → Option Nat
  | [], acc => some acc
  | c :: cs, acc =>
    match base58Digit c with
    | some d => base58ToNat cs (acc * 58 + d)
    | none => none

/-- Big-endian bytes of `n` without leading zeros (`fuel` bounds the number of
bytes). -/
def natToBytesBE : Nat → Nat → List Nat → List Nat
  | 0, _, acc => acc
  | fuel + 1, n, acc =>
    if n = 0 then acc else natToBytesBE fuel (n / 256) (n % 256 :: acc)

/-- Base58 decoding: every leading `1` is a zero byte, the rest is the
big-endian number. -/
def base58Decode (s : String) : Option (List Nat) :=
  let cs := s.toList
  let zeros := (cs.takeWhile (· == '1')).length
  match base58ToNat cs 0 with
  | some n => some (List.replicate zeros 0 ++ natToBytesBE cs.length n [])
  | none => none

/-- Go `solana.PublicKeyFromBase58`: decodes and requires exactly 32 bytes. -/
def PublicKeyFromBase58 (s : String) : Option PublicKey :=
  match base58Decode s with
  | some bs => if bs.length = 32 then some ⟨bs⟩ else none
  | none => none

/-- Go `solana.MustPublicKeyFromBase58`. The Go function panics on an invalid
string; the literals of this package are all valid (`wellKnown_valid`), so the
fallback below is never taken for them. -/
def MustPublicKeyFromBase58 (s : String) : PublicKey :=
  match PublicKeyFromBase58 s with
  | some k => k
  | none => ⟨[]⟩

/-! ## Package-level variables -/

/-- The `var ( ... )` block of the package: the four well-known addresses. -/
structure Globals where
  globalPumpFunAddress : PublicKey
  pumpFunMintAuthority : PublicKey
  pumpFunEventAuthority : PublicKey
  pumpFunFeeRecipient : PublicKey
  deriving DecidableEq, Repr

/-- The values the package variables are initialised with. -/
def Globals.init : Globals where
  globalPumpFunAddress := MustPublicKeyFromBase58 "4wTV1YmiEkRvAtNtsSGPtUrqRYQMe5SKy2uB4Jjaxnjf"
  pumpFunMintAuthority := MustPublicKeyFromBase58 "TSLvdd1pWpHVjahSpsvCXUbgwsL3JAcvokwaKt1eokM"
  pumpFunEventAuthority := MustPublicKeyFromBase58 "Ce6TQqeHC9p8KetsN6JsjHK7UTZk7nasjjnr7XxXp9F1"
  pumpFunFeeRecipient := MustPublicKeyFromBase58 "CebN5WGQ4jvEPvsVU4EoHEpgzq1VV7AbicfhtW4xC9iM"

/-- Go `SetDevnetMode`: one assignment, to `pumpFunFeeRecipient`. -/
def SetDevnetMode (g : Globals) : Globals :=
  { g with pumpFunFeeRecipient :=
      MustPublicKeyFromBase58 "68yFSZxzLWJXkxxRGydZ63C6mHx1NLEDWmwN9Lb5yySg" }

/-! ## Values exchanged with the libraries -/

/-- Go `float64` as its IEEE-754 binary64 fields: sign bit, 11-bit biased
exponent, 52-bit fraction. -/
structure Float64 where
  sign : Bool
  exponent : Nat
  mantissa : Nat
  deriving DecidableEq, Repr

/-- IEEE-754 NaN: all exponent bits set and a non-zero fraction. -/
def Float64.isNaN (f : Float64) : Bool :=
  f.exponent == 2047 && f.mantissa != 0

/-- IEEE-754 zero of either sign. -/
def Float64.isZero (f : Float64) : Bool :=
  f.exponent == 0 && f.mantissa == 0

/-- The Go comparison `f > 0`: false for NaN, for both zeros and for every
value with the sign bit set. -/
def Float64.gtZero (f : Float64) : Bool :=
  !f.isNaN && !f.isZero && !f.sign

/-- Go `error` values as built by `fmt.Errorf("...: %w", err)`. -/
inductive Error where
  | mk (msg : String)
  | wrap (format : String) (cause : Error)
  deriving DecidableEq, Repr

/-- Go `fmt.Errorf(format, err)` with one `%w` verb. -/
def Errorf (format : String) (err : Error) : Error :=
  .wrap format err

/-- Go `cb.SetComputeUnitLimit`. -/
structure SetComputeUnitLimit where
  Units : Nat
  deriving DecidableEq, Repr

/-- Go `cb.SetComputeUnitPrice`. -/
structure SetComputeUnitPrice where
  MicroLamports : Nat
  deriving DecidableEq, Repr

/-- Go `cb.NewSetComputeUnitLimitInstruction`. -/
def NewSetComputeUnitLimitInstruction (units : Nat) : SetComputeUnitLimit :=
  ⟨units⟩

/-- Go `cb.NewSetComputeUnitPriceInstruction`. -/
def NewSetComputeUnitPriceInstruction (microLamports : Nat) : SetComputeUnitPrice :=
  ⟨microLamports⟩

/-- Modelled from the spec: the type `pumpidl.Create`, the token-creation
instruction builder generated from the program IDL (package `pumpidl` is
outside the sources at hand). Section 4.4 item 3 of the spec parameterises the
instruction by a name, a symbol, a metadata URI and a list of accounts. Its
constructor `pumpidl.NewCreateInstruction` is a field of `Env`. -/
structure Create where
  Name : String
  Symbol : String
  Uri : String
  Accounts : List PublicKey
  deriving DecidableEq, Repr

/-- Go `solana.Instruction`: what the builders' `Build()` return. Instructions
of other programs (the buy instructions) are kept generic. -/
inductive Instruction where
  | computeUnitLimit (inst : SetComputeUnitLimit)
  | computeUnitPrice (inst : SetComputeUnitPrice)
  | pumpCreate (inst : Create)
  | generic (programID : PublicKey) (accounts : List PublicKey) (data : List Nat)
  deriving DecidableEq, Repr

/-- Go `(*cb.SetComputeUnitLimit).Build`. -/
def SetComputeUnitLimit.Build (inst : SetComputeUnitLimit) : Instruction :=
  .computeUnitLimit inst

/-- Go `(*cb.SetComputeUnitPrice).Build`. -/
def SetComputeUnitPrice.Build (inst : SetComputeUnitPrice) : Instruction :=
  .computeUnitPrice inst

/-- Go `(*pumpidl.Create).Build`. -/
def Create.Build (inst : Create) : Instruction :=
  .pumpCreate inst

/-- The accounts an instruction refers to. -/
def Instruction.Accounts : Instruction → List PublicKey
  | .computeUnitLimit _ => []
  | .computeUnitPrice _ => []
  | .pumpCreate inst => inst.Accounts
  | .generic _ accounts _ => accounts

/-- Go `rpc.PriorizationFeeResult`; both fields are `uint64`. -/
structure PriorizationFeeResult where
  Slot : Nat
  PrioritizationFee : Nat
  deriving DecidableEq, Repr

/-- Go `rpc.CommitmentType`. -/
inductive CommitmentType where
  | CommitmentFinalized
  | CommitmentConfirmed
  | CommitmentProcessed
  deriving DecidableEq, Repr

/-- Go `solana.Hash`, as held in `recent.Value.Blockhash`. -/
structure Hash where
  bytes : List Nat
  deriving DecidableEq, Repr

/-- Go `solana.Signature`, a `[64]byte`. -/
structure Signature where
  bytes : List Nat
  deriving DecidableEq, Repr

/-- Base58 digits of `n`, most significant first (`fuel` bounds their number). -/
def natToBase58 : Nat → Nat → List Char → List Char
  | 0, _, acc => acc
  | fuel + 1, n, acc =>
    if n = 0 then acc
    else natToBase58 fuel (n / 58) (base58Alphabet.getD (n % 58) '1' :: acc)

/-- Base58 encoding: every leading zero byte is a `1`, the rest is the
big-endian number. -/
def base58Encode (bs : List Nat) : String :=
  let zeros := (bs.takeWhile (· == 0)).length
  let n := bs.foldl (fun acc b => acc * 256 + b) 0
  String.mk (List.replicate zeros '1' ++ natToBase58 (2 * bs.length) n [])

/-- Go `Signature.String()`: the base58 text of the signature. -/
def Signature.String (sig : Signature) : String :=
  base58Encode sig.bytes

/-- Go `solana.Transaction`, reduced to what `CreateToken` hands over. -/
structure Transaction where
  Instructions : List Instruction
  RecentBlockhash : Hash
  FeePayer : PublicKey
  Signatures : List Signature
  deriving DecidableEq, Repr

/-! ## The environment -/

/-- Everything `create.go` uses and does not define. Constants of imported
packages come first, then the pure derivation helpers of `solana-go`, then the
network calls, then the package's own helpers from other files, then the
transaction functions. A Go result `(v, err)` is an `Except Error`. -/
structure Env where
  /-- Go `pumpidl.ProgramID`. -/
  ProgramID : PublicKey
  /-- Go `solana.TokenMetadataProgramID`. -/
  TokenMetadataProgramID : PublicKey
  /-- Go `system.ProgramID`. -/
  SystemProgramID : PublicKey
  /-- Go `token.ProgramID`. -/
  TokenProgramID : PublicKey
  /-- Go `associatedtokenaccount.ProgramID`. -/
  AssociatedTokenAccountProgramID : PublicKey
  /-- Go `solana.SysVarRentPubkey`. -/
  SysVarRentPubkey : PublicKey
  /-- Go `pumpidl.NewCreateInstruction`, with the seventeen parameters the call
  of lines 118-136 supplies, in that order. -/
  NewCreateInstruction : String → String → String → PublicKey → PublicKey → PublicKey →
    PublicKey → PublicKey → PublicKey → PublicKey → PublicKey → PublicKey → PublicKey →
    PublicKey → PublicKey → PublicKey → PublicKey → Create
  /-- Go `solana.FindProgramAddress(seeds, programID)`: address and bump seed. -/
  FindProgramAddress : List (List Nat) → PublicKey → Except Error (PublicKey × Nat)
  /-- Go `solana.FindAssociatedTokenAddress(wallet, mint)`. -/
  FindAssociatedTokenAddress : PublicKey → PublicKey → Except Error (PublicKey × Nat)
  /-- Go `solana.FindTokenMetadataAddress(mint)`. -/
  FindTokenMetadataAddress : PublicKey → Except Error (PublicKey × Nat)
  /-- Go `rpcClient.GetRecentPrioritizationFees(ctx, accounts)`. -/
  GetRecentPrioritizationFees : List PublicKey → Except Error (List PriorizationFeeResult)
  /-- Go `rpcClient.GetLatestBlockhash(ctx, commitment)`, projected to
  `Value.Blockhash`. -/
  GetLatestBlockhash : CommitmentType → Except Error Hash
  /-- Go `SolToLamp` of this package (another file): SOL amount to lamports. -/
  SolToLamp : Float64 → Nat
  /-- Go `getBuyInstructions(rpcClient, mint, user, lamports, percentage)` of
  this package (another file); it may read the package variables. -/
  getBuyInstructions : Globals → PublicKey → PublicKey → Nat → Float64 → Except Error (List Instruction)
  /-- Go `solana.NewTransaction(instructions, blockhash, TransactionPayer(payer))`. -/
  NewTransaction : List Instruction → Hash → PublicKey → Except Error Transaction
  /-- Go `tx.Sign(getter)`: the transaction with its signatures attached. -/
  Sign : Transaction → (PublicKey → Option PrivateKey) → Except Error Transaction
  /-- Go `confirm.SendAndConfirmTransaction(ctx, rpcClient, wsClient, tx)`. -/
  SendAndConfirmTransaction : Transaction → Except Error Signature

/-! ## Runs -/

/-- A call that leaves `create.go`, with its arguments. -/
inductive Call where
  | FindProgramAddress (seeds : List (List Nat)) (programID : PublicKey)
  | FindAssociatedTokenAddress (wallet mint : PublicKey)
  | FindTokenMetadataAddress (mint : PublicKey)
  | GetRecentPrioritizationFees (accounts : List PublicKey)
  | GetLatestBlockhash (commitment : CommitmentType)
  | getBuyInstructions (mint user : PublicKey) (lamports : Nat) (percentage : Float64)
  | NewTransaction (instructions : List Instruction) (blockhash : Hash) (payer : PublicKey)
  | Sign (tx : Transaction)
  | SendAndConfirmTransaction (tx : Transaction)
  deriving DecidableEq, Repr

/-- One entry of the trace: the call and whether it returned a nil error. -/
structure Event where
  call : Call
  ok : Bool
  deriving DecidableEq, Repr

/-- How a Go function ends: it returns, or a runtime panic unwinds it. -/
inductive Outcome (α : Type) where
  | value (a : α)
  | panic (msg : String)
  deriving DecidableEq, Repr

/-- The observable behaviour of a function: the calls it made, in order, and
how it ended. -/
structure Run (α : Type) where
  trace : List Event
  outcome : Outcome α

/-- A run that makes no call and returns `a`. -/
def Run.pure {α : Type} (a : α) : Run α :=
  ⟨[], .value a⟩

/-- Sequencing: the continuation runs only when the first part returned; a
panic ends the run where it happened. -/
def Run.bind {α β : Type} (r : Run α) (f : α → Run β) : Run β :=
  match r.outcome with
  | .value a => ⟨r.trace ++ (f a).trace, (f a).outcome⟩
  | .panic msg => ⟨r.trace, .panic msg⟩

instance : Monad Run where
  pure := Run.pure
  bind := Run.bind

/-- A Go runtime panic. -/
def Run.panic {α : Type} (msg : String) : Run α :=
  ⟨[], .panic msg⟩

/-- Whether a Go result carries a nil error. -/
def isOk {α : Type} : Except Error α → Bool
  | .ok _ => true
  | .error _ => false

/-- Performs an external call: logs it with its success flag and hands its
result on. -/
def call {α : Type} (c : Call) (result : Except Error α) : Run (Except Error α) :=
  ⟨[⟨c, isOk result⟩], .value result⟩

/-! ## The functions of `create.go` -/

/-- Go `BondingCurvePublicKeys`. -/
structure BondingCurvePublicKeys where
  BondingCurve : PublicKey
  AssociatedBondingCurve : PublicKey
  deriving DecidableEq, Repr

/-- Go `[]byte("bonding-curve")`; the text is ASCII, so its UTF-8 bytes are
its character codes. -/
def bondingCurveSeed : List Nat :=
  "bonding-curve".toList.map Char.toNat

/-- Go `getBondingCurveAndAssociatedBondingCurve` (lines 58-82). -/
def getBondingCurveAndAssociatedBondingCurve (env : Env) (_g : Globals) (mint : PublicKey) :
    Run (Except Error BondingCurvePublicKeys) := do
  let seeds := [bondingCurveSeed, mint.Bytes]
  match ← call (.FindProgramAddress seeds env.ProgramID)
      (env.FindProgramAddress seeds env.ProgramID) with
  | .error err =>
    return .error (Errorf "failed to derive bonding curve address: %w" err)
  | .ok (bondingCurve, _) =>
    match ← call (.FindAssociatedTokenAddress bondingCurve mint)
        (env.FindAssociatedTokenAddress bondingCurve mint) with
    | .error err =>
      return .error (Errorf "failed to derive associated bonding curve address: %w" err)
    | .ok (associatedBondingCurve, _) =>
      return .ok { BondingCurve := bondingCurve,
                   AssociatedBondingCurve := associatedBondingCurve }

/-- The account list of line 86, in source order. -/
def feeAccounts (env : Env) (g : Globals) (user : PrivateKey) : List PublicKey :=
  [user.PublicKey, env.ProgramID, g.pumpFunMintAuthority, g.globalPumpFunAddress,
   env.TokenMetadataProgramID, env.SystemProgramID, env.TokenProgramID,
   env.AssociatedTokenAccountProgramID, env.SysVarRentPubkey, g.pumpFunEventAuthority]

/-- Go `getComputUnitPriceInstr` (lines 84-98). `median` starts at zero and the
loop body assigns (it does not add) each sample's fee to it; `length` is
`uint64(len(out))`, exact since `len` is a non-negative `int`; `median /= length`
is `uint64` division, which panics for a zero divisor. -/
def getComputUnitPriceInstr (env : Env) (g : Globals) (user : PrivateKey) :
    Run (Except Error SetComputeUnitPrice) := do
  match ← call (.GetRecentPrioritizationFees (feeAccounts env g user))
      (env.GetRecentPrioritizationFees (feeAccounts env g user)) with
  | .error err =>
    return .error (Errorf "failed to get recent prioritization fees: %w" err)
  | .ok out =>
    let median : Nat := 0
    let length : Nat := out.length
    let median := out.foldl (fun _ fee => fee.PrioritizationFee) median
    if length = 0 then
      Run.panic "runtime error: integer divide by zero"
    else
      let median := median / length
      let cupInst := NewSetComputeUnitPriceInstruction median
      return .ok cupInst

/-- The callback of lines 165-173 handed to `tx.Sign`. -/
def signerGetter (user : PrivateKey) (mint : Wallet) (key : PublicKey) : Option PrivateKey :=
  if user.PublicKey.Equals key then
    some user
  else if mint.PublicKey.Equals key then
    some mint.PrivateKey
  else
    none

/-- Lines 156-188 of `CreateToken`: build the transaction from the final
instruction list, sign it, send it and wait for confirmation. -/
def CreateToken.submit (env : Env) (user : PrivateKey) (mint : Wallet)
    (instructions : List Instruction) (recent : Hash) : Run (String × Option Error) := do
  match ← call (.NewTransaction instructions recent user.PublicKey)
      (env.NewTransaction instructions recent user.PublicKey) with
  | .error err =>
    return ("", some (Errorf "error while creating new transaction: %w" err))
  | .ok tx =>
    match ← call (.Sign tx) (env.Sign tx (signerGetter user mint)) with
    | .error err =>
      return ("", some (Errorf "can\x27t sign transaction: %w" err))
    | .ok tx =>
      match ← call (.SendAndConfirmTransaction tx) (env.SendAndConfirmTransaction tx) with
      | .error err =>
        return ("", some (Errorf "can\x27t send and confirm new transaction: %w" err))
      | .ok sig =>
        return (sig.String, none)

/-- Go `CreateToken` (lines 100-189). The Go result `(string, error)` is a
pair whose second component is `none` for a nil error. The statements after
the `if buyAmountSol > 0` block are `CreateToken.submit`, entered with the
instruction list as it stands when the block is left. -/
def CreateToken (env : Env) (g : Globals) (user : PrivateKey) (mint : Wallet)
    (name symbol uri : String) (buyAmountSol percentage : Float64) :
    Run (String × Option Error) := do
  match ← getBondingCurveAndAssociatedBondingCurve env g mint.PublicKey with
  | .error err =>
    return ("", some (Errorf "failed to get bonding curve and associated bonding curve: %w" err))
  | .ok bondingCurveData =>
    match ← call (.FindTokenMetadataAddress mint.PublicKey)
        (env.FindTokenMetadataAddress mint.PublicKey) with
    | .error err =>
      return ("", some (Errorf "can\x27t find token metadata address: %w" err))
    | .ok (metadata, _) =>
      let culInst := NewSetComputeUnitLimitInstruction 250000
      match ← getComputUnitPriceInstr env g user with
      | .error err =>
        return ("", some (Errorf "failed to get compute unit price instructions: %w" err))
      | .ok cupInst =>
        let instr := env.NewCreateInstruction name symbol uri
          mint.PublicKey
          g.pumpFunMintAuthority
          bondingCurveData.BondingCurve
          bondingCurveData.AssociatedBondingCurve
          g.globalPumpFunAddress
          env.TokenMetadataProgramID
          metadata
          user.PublicKey
          env.SystemProgramID
          env.TokenProgramID
          env.AssociatedTokenAccountProgramID
          env.SysVarRentPubkey
          g.pumpFunEventAuthority
          env.ProgramID
        let instruction := instr.Build
        match ← call (.GetLatestBlockhash .CommitmentFinalized)
            (env.GetLatestBlockhash .CommitmentFinalized) with
        | .error err =>
          return ("", some (Errorf "error while getting recent block hash: %w" err))
        | .ok recent =>
          let instructions := [culInst.Build, cupInst.Build, instruction]
          if buyAmountSol.gtZero then
            match ← call (.getBuyInstructions mint.PublicKey user.PublicKey
                  (env.SolToLamp buyAmountSol) percentage)
                (env.getBuyInstructions g mint.PublicKey user.PublicKey
                  (env.SolToLamp buyAmountSol) percentage) with
            | .error err =>
              return ("", some (Errorf "failed to get buy instructions: %w" err))
            | .ok buyInstructions =>
              CreateToken.submit env user mint (instructions ++ buyInstructions) recent
          else
            CreateToken.submit env user mint instructions recent

/-! ## Vocabulary of the statements -/

/-- The value of `instruction` (lines 118-137) for given derived addresses. -/
def createInstruction (env : Env) (g : Globals) (user : PrivateKey) (mint : Wallet)
    (name symbol uri : String) (bondingCurve associatedBondingCurve metadata : PublicKey) :
    Instruction :=
  (env.NewCreateInstruction name symbol uri mint.PublicKey g.pumpFunMintAuthority bondingCurve
    associatedBondingCurve g.globalPumpFunAddress env.TokenMetadataProgramID metadata
    user.PublicKey env.SystemProgramID env.TokenProgramID env.AssociatedTokenAccountProgramID
    env.SysVarRentPubkey g.pumpFunEventAuthority env.ProgramID).Build

/-- Which function a call went to. -/
inductive CallKind where
  | FindProgramAddress
  | FindAssociatedTokenAddress
  | FindTokenMetadataAddress
  | GetRecentPrioritizationFees
  | GetLatestBlockhash
  | getBuyInstructions
  | NewTransaction
  | Sign
  | SendAndConfirmTransaction
  deriving DecidableEq, Repr

/-- The function a call went to. -/
def Call.kind : Call → CallKind
  | .FindProgramAddress _ _ => .FindProgramAddress
  | .FindAssociatedTokenAddress _ _ => .FindAssociatedTokenAddress
  | .FindTokenMetadataAddress _ => .FindTokenMetadataAddress
  | .GetRecentPrioritizationFees _ => .GetRecentPrioritizationFees
  | .GetLatestBlockhash _ => .GetLatestBlockhash
  | .getBuyInstructions _ _ _ _ => .getBuyInstructions
  | .NewTransaction _ _ _ => .NewTransaction
  | .Sign _ => .Sign
  | .SendAndConfirmTransaction _ => .SendAndConfirmTransaction

/-- A trace entry as (function, success flag). -/
def Event.summary (ev : Event) : CallKind × Bool :=
  (ev.call.kind, ev.ok)

/-- The order in which `CreateToken` reaches its external calls; the
buy-instruction builder is part of it only for a positive buy amount. -/
def stageOrder (buy : Bool) : List CallKind :=
  [.FindProgramAddress, .FindAssociatedTokenAddress, .FindTokenMetadataAddress,
   .GetRecentPrioritizationFees, .GetLatestBlockhash] ++
  (if buy then [.getBuyInstructions] else []) ++
  [.NewTransaction, .Sign, .SendAndConfirmTransaction]

/-- The instruction list of the first `NewTransaction` call of a trace. -/
def assembledInstructions : List Event → Option (List Instruction)
  | [] => none
  | ⟨.NewTransaction instructions _ _, _⟩ :: _ => some instructions
  | _ :: rest => assembledInstructions rest

/-- The arithmetic mean in the words of the specification: the sum of all
`PrioritizationFee` values, as a `uint64`, divided by the number of samples. -/
def specMeanFee (out : List PriorizationFeeResult) : Nat :=
  ((out.map (·.PrioritizationFee)).sum % 2 ^ 64) / out.length

/-! ## A concrete environment -/

namespace Example

/-- The key whose 32 bytes all equal `b`. -/
def key (b : Nat) : PublicKey :=
  ⟨List.replicate 32 b⟩

/-- A user key pair with public key `key 1`. -/
def user : PrivateKey :=
  ⟨List.replicate 32 7 ++ List.replicate 32 1⟩

/-- A mint wallet with public key `key 2`. -/
def mint : Wallet :=
  ⟨⟨List.replicate 32 9 ++ List.replicate 32 2⟩⟩

/-- The `float64` zero. -/
def zero : Float64 :=
  ⟨false, 0, 0⟩

/-- The `float64` 1.5: exponent 0 (biased 1023), fraction one half. -/
def onePointFive : Float64 :=
  ⟨false, 1023, 2 ^ 51⟩

/-- The `float64` 25.0: 1.5625 times two to the fourth. -/
def twentyFive : Float64 :=
  ⟨false, 1027, 9 * 2 ^ 48⟩

/-- Three fee samples. -/
def samples : List PriorizationFeeResult :=
  [⟨1, 100⟩, ⟨2, 200⟩, ⟨3, 600⟩]

/-- Modelled from the spec: `pumpidl.NewCreateInstruction` (package `pumpidl`
is generated code outside the sources at hand). Section 4.4 item 3 of the spec
lists what the token-creation instruction is parameterised by: name, symbol,
metadata URI, mint address, mint authority, bonding curve, associated bonding
curve, global account, metadata-program id, token-metadata address,
creator/payer address, system-program id, token-program id,
associated-token-account-program id, rent sysvar, event authority, owning
program id. The builder records them, the accounts in that order. -/
def newCreateInstruction (name symbol uri : String)
    (mint mintAuthority bondingCurve associatedBondingCurve global mplTokenMetadata
      metadata user systemProgram tokenProgram associatedTokenProgram rent
      eventAuthority program : PublicKey) : Create where
  Name := name
  Symbol := symbol
  Uri := uri
  Accounts := [mint, mintAuthority, bondingCurve, associatedBondingCurve, global,
    mplTokenMetadata, metadata, user, systemProgram, tokenProgram,
    associatedTokenProgram, rent, eventAuthority, program]

/-- A signer: the fee payer and the first account of the third instruction
(the mint of the token-creation instruction) must both resolve through the
callback; each then contributes one signature. -/
def sign (tx : Transaction) (getter : PublicKey → Option PrivateKey) : Except Error Transaction :=
  let signers := tx.FeePayer :: ((tx.Instructions.drop 2).head?.map (·.Accounts.take 1)).getD []
  if signers.all (fun k => (getter k).isSome) then
    .ok { tx with Signatures := signers.map (fun k => ⟨k.bytes ++ k.bytes⟩) }
  else
    .error (.mk "signer key not found")

/-- The blockhash the example network reports. -/
def blockhash : Hash :=
  ⟨List.replicate 32 8⟩

/-- The buy instructions the example builder returns. -/
def buyInstructions (g : Globals) (mint user : PublicKey) (lamports : Nat) : List Instruction :=
  [.generic (key 13) [user, mint] [1],
   .generic (key 10) [g.pumpFunFeeRecipient, mint, user] [102, lamports]]

/-- An environment in which every call succeeds. -/
def env : Env where
  ProgramID := key 10
  TokenMetadataProgramID := key 11
  SystemProgramID := key 0
  TokenProgramID := key 12
  AssociatedTokenAccountProgramID := key 13
  SysVarRentPubkey := key 14
  NewCreateInstruction := newCreateInstruction
  FindProgramAddress := fun _ _ => .ok (key 3, 255)
  FindAssociatedTokenAddress := fun _ _ => .ok (key 4, 254)
  FindTokenMetadataAddress := fun _ => .ok (key 5, 253)
  GetRecentPrioritizationFees := fun _ => .ok samples
  GetLatestBlockhash := fun _ => .ok blockhash
  SolToLamp := fun _ => 1500000000
  getBuyInstructions := fun g mint user lamports _ => .ok (buyInstructions g mint user lamports)
  NewTransaction := fun instructions recent payer => .ok ⟨instructions, recent, payer, []⟩
  Sign := sign
  SendAndConfirmTransaction := fun tx =>
    match tx.Signatures with
    | sig :: _ => .ok sig
    | [] => .error (.mk "transaction has no signature")

/-- As `env`, but the network has no fee sample. -/
def envNoSamples : Env :=
  { env with GetRecentPrioritizationFees := fun _ => .ok [] }

/-- As `env`, but the buy-instruction builder fails. -/
def envBuyFails : Env :=
  { env with getBuyInstructions := fun _ _ _ _ _ => .error (.mk "bonding curve account not found") }

/-- As `env`, but the signer finds no key. -/
def envSignFails : Env :=
  { env with Sign := fun _ _ => .error (.mk "signer key not found") }

/-- The token-creation instruction of the example runs, in mainnet mode. -/
def createInst : Instruction :=
  createInstruction env Globals.init user mint "Token" "TKN" "https://example.org/t.json"
    (key 3) (key 4) (key 5)

/-- A run of `CreateToken` on the example inputs. -/
def run (e : Env) (g : Globals) (buyAmountSol : Float64) : Run (String × Option Error) :=
  CreateToken e g user mint "Token" "TKN" "https://example.org/t.json" buyAmountSol twentyFive

end Example

/-! ## Unfolding lemmas -/

/-- The monadic bind of `Run` is `Run.bind`. -/
theorem Run.bind_eq {α β : Type} (r : Run α) (f : α → Run β) : (r >>= f) = Run.bind r f := rfl

/-- The monadic unit of `Run` is `Run.pure`. -/
theorem Run.pure_eq {α : Type} (a : α) : (Pure.pure a : Run α) = Run.pure a := rfl

/-- The three ways `getBondingCurveAndAssociatedBondingCurve` can go. -/
theorem getBondingCurveAndAssociatedBondingCurve_eq (env : Env) (g : Globals) (mint : PublicKey) :
    getBondingCurveAndAssociatedBondingCurve env g mint =
      match env.FindProgramAddress [bondingCurveSeed, mint.Bytes] env.ProgramID with
      | .error err => ⟨[⟨.FindProgramAddress [bondingCurveSeed, mint.Bytes] env.ProgramID, false⟩],
          .value (.error (Errorf "failed to derive bonding curve address: %w" err))⟩
      | .ok (bc, _) =>
        match env.FindAssociatedTokenAddress bc mint with
        | .error err => ⟨[⟨.FindProgramAddress [bondingCurveSeed, mint.Bytes] env.ProgramID, true⟩,
             ⟨.FindAssociatedTokenAddress bc mint, false⟩],
          .value (.error (Errorf "failed to derive associated bonding curve address: %w" err))⟩
        | .ok (abc, _) => ⟨[⟨.FindProgramAddress [bondingCurveSeed, mint.Bytes] env.ProgramID, true⟩,
             ⟨.FindAssociatedTokenAddress bc mint, true⟩], .value (.ok ⟨bc, abc⟩)⟩ := by
  unfold getBondingCurveAndAssociatedBondingCurve
  simp only [Run.bind_eq, Run.pure_eq, Run.bind, Run.pure, call]
  cases h1 : env.FindProgramAddress [bondingCurveSeed, mint.Bytes] env.ProgramID with
  | error e => simp [isOk]
  | ok p =>
    obtain ⟨bc, bump⟩ := p
    simp only [isOk]
    cases h2 : env.FindAssociatedTokenAddress bc mint with
    | error e => simp [isOk]
    | ok q => simp [isOk]

/-- The three ways `getComputUnitPriceInstr` can go. -/
theorem getComputUnitPriceInstr_eq (env : Env) (g : Globals) (user : PrivateKey) :
    getComputUnitPriceInstr env g user =
      match env.GetRecentPrioritizationFees (feeAccounts env g user) with
      | .error err => ⟨[⟨.GetRecentPrioritizationFees (feeAccounts env g user), false⟩],
          .value (.error (Errorf "failed to get recent prioritization fees: %w" err))⟩
      | .ok out =>
        if out.length = 0 then
          ⟨[⟨.GetRecentPrioritizationFees (feeAccounts env g user), true⟩],
            .panic "runtime error: integer divide by zero"⟩
        else
          ⟨[⟨.GetRecentPrioritizationFees (feeAccounts env g user), true⟩],
            .value (.ok ⟨out.foldl (fun _ fee => fee.PrioritizationFee) 0 / out.length⟩)⟩ := by
  unfold getComputUnitPriceInstr
  simp only [Run.bind_eq, Run.pure_eq, Run.bind, Run.pure, call]
  cases h1 : env.GetRecentPrioritizationFees (feeAccounts env g user) with
  | error e => simp [isOk]
  | ok out =>
    by_cases h : out.length = 0
    · simp [isOk, h, Run.panic]
    · simp [isOk, h, NewSetComputeUnitPriceInstruction]


/-- The four ways the build-sign-send tail of `CreateToken` can go. -/
theorem CreateToken.submit_eq (env : Env) (user : PrivateKey) (mint : Wallet)
    (instructions : List Instruction) (recent : Hash) :
    CreateToken.submit env user mint instructions recent =
      match env.NewTransaction instructions recent user.PublicKey with
      | .error err =>
        ⟨[⟨.NewTransaction instructions recent user.PublicKey, false⟩],
          .value ("", some (Errorf "error while creating new transaction: %w" err))⟩
      | .ok tx =>
        match env.Sign tx (signerGetter user mint) with
        | .error err =>
          ⟨[⟨.NewTransaction instructions recent user.PublicKey, true⟩, ⟨.Sign tx, false⟩],
            .value ("", some (Errorf "can\x27t sign transaction: %w" err))⟩
        | .ok signed =>
          match env.SendAndConfirmTransaction signed with
          | .error err =>
            ⟨[⟨.NewTransaction instructions recent user.PublicKey, true⟩, ⟨.Sign tx, true⟩,
                ⟨.SendAndConfirmTransaction signed, false⟩],
              .value ("", some (Errorf "can\x27t send and confirm new transaction: %w" err))⟩
          | .ok sig =>
            ⟨[⟨.NewTransaction instructions recent user.PublicKey, true⟩, ⟨.Sign tx, true⟩,
                ⟨.SendAndConfirmTransaction signed, true⟩],
              .value (sig.String, none)⟩ := by
  unfold CreateToken.submit
  simp only [Run.bind_eq, Run.pure_eq, Run.bind, Run.pure, call]
  cases h1 : env.NewTransaction instructions recent user.PublicKey with
  | error e => simp [isOk]
  | ok tx =>
    simp only [isOk]
    cases h2 : env.Sign tx (signerGetter user mint) with
    | error e => simp [isOk]
    | ok signed =>
      simp only [isOk]
      cases h3 : env.SendAndConfirmTransaction signed with
      | error e => simp [isOk]
      | ok sig => simp [isOk]

/-- Every path through `CreateToken`, by the results of its calls. -/
theorem CreateToken_eq (env : Env) (g : Globals) (user : PrivateKey) (mint : Wallet)
    (name symbol uri : String) (buyAmountSol percentage : Float64) :
    CreateToken env g user mint name symbol uri buyAmountSol percentage =
      match env.FindProgramAddress [bondingCurveSeed, mint.PublicKey.Bytes] env.ProgramID with
      | .error err =>
        ⟨[⟨.FindProgramAddress [bondingCurveSeed, mint.PublicKey.Bytes] env.ProgramID, false⟩],
          .value ("", some (Errorf "failed to get bonding curve and associated bonding curve: %w"
            (Errorf "failed to derive bonding curve address: %w" err)))⟩
      | .ok (bc, _) =>
        match env.FindAssociatedTokenAddress bc mint.PublicKey with
        | .error err =>
          ⟨[⟨.FindProgramAddress [bondingCurveSeed, mint.PublicKey.Bytes] env.ProgramID, true⟩,
              ⟨.FindAssociatedTokenAddress bc mint.PublicKey, false⟩],
            .value ("", some (Errorf "failed to get bonding curve and associated bonding curve: %w"
              (Errorf "failed to derive associated bonding curve address: %w" err)))⟩
        | .ok (abc, _) =>
          match env.FindTokenMetadataAddress mint.PublicKey with
          | .error err =>
            ⟨[⟨.FindProgramAddress [bondingCurveSeed, mint.PublicKey.Bytes] env.ProgramID, true⟩,
                ⟨.FindAssociatedTokenAddress bc mint.PublicKey, true⟩,
                ⟨.FindTokenMetadataAddress mint.PublicKey, false⟩],
              .value ("", some (Errorf "can\x27t find token metadata address: %w" err))⟩
          | .ok (metadata, _) =>
            match env.GetRecentPrioritizationFees (feeAccounts env g user) with
            | .error err =>
              ⟨[⟨.FindProgramAddress [bondingCurveSeed, mint.PublicKey.Bytes] env.ProgramID, true⟩,
                  ⟨.FindAssociatedTokenAddress bc mint.PublicKey, true⟩,
                  ⟨.FindTokenMetadataAddress mint.PublicKey, true⟩,
                  ⟨.GetRecentPrioritizationFees (feeAccounts env g user), false⟩],
                .value ("", some (Errorf "failed to get compute unit price instructions: %w"
                  (Errorf "failed to get recent prioritization fees: %w" err)))⟩
            | .ok out =>
              if out.length = 0 then
                ⟨[⟨.FindProgramAddress [bondingCurveSeed, mint.PublicKey.Bytes] env.ProgramID, true⟩,
                    ⟨.FindAssociatedTokenAddress bc mint.PublicKey, true⟩,
                    ⟨.FindTokenMetadataAddress mint.PublicKey, true⟩,
                    ⟨.GetRecentPrioritizationFees (feeAccounts env g user), true⟩],
                  .panic "runtime error: integer divide by zero"⟩
              else
                match env.GetLatestBlockhash .CommitmentFinalized with
                | .error err =>
                  ⟨[⟨.FindProgramAddress [bondingCurveSeed, mint.PublicKey.Bytes] env.ProgramID, true⟩,
                      ⟨.FindAssociatedTokenAddress bc mint.PublicKey, true⟩,
                      ⟨.FindTokenMetadataAddress mint.PublicKey, true⟩,
                      ⟨.GetRecentPrioritizationFees (feeAccounts env g user), true⟩,
                      ⟨.GetLatestBlockhash .CommitmentFinalized, false⟩],
                    .value ("", some (Errorf "error while getting recent block hash: %w" err))⟩
                | .ok recent =>
                  if buyAmountSol.gtZero = true then
                    match env.getBuyInstructions g mint.PublicKey user.PublicKey
                        (env.SolToLamp buyAmountSol) percentage with
                    | .error err =>
                      ⟨[⟨.FindProgramAddress [bondingCurveSeed, mint.PublicKey.Bytes] env.ProgramID, true⟩,
                          ⟨.FindAssociatedTokenAddress bc mint.PublicKey, true⟩,
                          ⟨.FindTokenMetadataAddress mint.PublicKey, true⟩,
                          ⟨.GetRecentPrioritizationFees (feeAccounts env g user), true⟩,
                          ⟨.GetLatestBlockhash .CommitmentFinalized, true⟩,
                          ⟨.getBuyInstructions mint.PublicKey user.PublicKey
                            (env.SolToLamp buyAmountSol) percentage, false⟩],
                        .value ("", some (Errorf "failed to get buy instructions: %w" err))⟩
                    | .ok buyInstructions =>
                      ⟨[⟨.FindProgramAddress [bondingCurveSeed, mint.PublicKey.Bytes] env.ProgramID, true⟩,
                          ⟨.FindAssociatedTokenAddress bc mint.PublicKey, true⟩,
                          ⟨.FindTokenMetadataAddress mint.PublicKey, true⟩,
                          ⟨.GetRecentPrioritizationFees (feeAccounts env g user), true⟩,
                          ⟨.GetLatestBlockhash .CommitmentFinalized, true⟩,
                          ⟨.getBuyInstructions mint.PublicKey user.PublicKey
                            (env.SolToLamp buyAmountSol) percentage, true⟩] ++
                        (CreateToken.submit env user mint
                          ([(NewSetComputeUnitLimitInstruction 250000).Build,
                            (NewSetComputeUnitPriceInstruction
                              (out.foldl (fun _ fee => fee.PrioritizationFee) 0 / out.length)).Build,
                            createInstruction env g user mint name symbol uri bc abc metadata] ++
                            buyInstructions) recent).trace,
                        (CreateToken.submit env user mint
                          ([(NewSetComputeUnitLimitInstruction 250000).Build,
                            (NewSetComputeUnitPriceInstruction
                              (out.foldl (fun _ fee => fee.PrioritizationFee) 0 / out.length)).Build,
                            createInstruction env g user mint name symbol uri bc abc metadata] ++
                            buyInstructions) recent).outcome⟩
                  else
                    ⟨[⟨.FindProgramAddress [bondingCurveSeed, mint.PublicKey.Bytes] env.ProgramID, true⟩,
                        ⟨.FindAssociatedTokenAddress bc mint.PublicKey, true⟩,
                        ⟨.FindTokenMetadataAddress mint.PublicKey, true⟩,
                        ⟨.GetRecentPrioritizationFees (feeAccounts env g user), true⟩,
                        ⟨.GetLatestBlockhash .CommitmentFinalized, true⟩] ++
                      (CreateToken.submit env user mint
                        [(NewSetComputeUnitLimitInstruction 250000).Build,
                          (NewSetComputeUnitPriceInstruction
                            (out.foldl (fun _ fee => fee.PrioritizationFee) 0 / out.length)).Build,
                          createInstruction env g user mint name symbol uri bc abc metadata]
                        recent).trace,
                      (CreateToken.submit env user mint
                        [(NewSetComputeUnitLimitInstruction 250000).Build,
                          (NewSetComputeUnitPriceInstruction
                            (out.foldl (fun _ fee => fee.PrioritizationFee) 0 / out.length)).Build,
                          createInstruction env g user mint name symbol uri bc abc metadata]
                        recent).outcome⟩ := by
  unfold CreateToken
  rw [getBondingCurveAndAssociatedBondingCurve_eq, getComputUnitPriceInstr_eq]
  simp only [Run.bind_eq, Run.pure_eq, Run.bind, Run.pure, call, createInstruction]
  cases h1 : env.FindProgramAddress [bondingCurveSeed, mint.PublicKey.Bytes] env.ProgramID with
  | error e => simp
  | ok p1 =>
    obtain ⟨bc, b1⟩ := p1
    simp only []
    cases h2 : env.FindAssociatedTokenAddress bc mint.PublicKey with
    | error e => simp
    | ok p2 =>
      obtain ⟨abc, b2⟩ := p2
      simp only [isOk]
      cases h3 : env.FindTokenMetadataAddress mint.PublicKey with
      | error e => simp
      | ok p3 =>
        obtain ⟨metadata, b3⟩ := p3
        simp only []
        cases h4 : env.GetRecentPrioritizationFees (feeAccounts env g user) with
        | error e => simp
        | ok out =>
          simp only []
          by_cases hlen : out.length = 0
          · simp [hlen]
          · simp only [hlen, if_false]
            cases h5 : env.GetLatestBlockhash .CommitmentFinalized with
            | error e => simp [isOk]
            | ok recent =>
              simp only [isOk]
              by_cases hbuy : buyAmountSol.gtZero = true
              · simp only [hbuy, if_true]
                cases h6 : env.getBuyInstructions g mint.PublicKey user.PublicKey
                    (env.SolToLamp buyAmountSol) percentage with
                | error e => simp [isOk]
                | ok buyInstructions =>
                  simp only [isOk]
                  simp [NewSetComputeUnitPriceInstruction]
              · simp [hbuy, NewSetComputeUnitPriceInstruction]

/-- The well-known address literals of the package decode to 32 bytes, so
`MustPublicKeyFromBase58` does not panic on any of them. -/
theorem wellKnown_valid :
    (PublicKeyFromBase58 "4wTV1YmiEkRvAtNtsSGPtUrqRYQMe5SKy2uB4Jjaxnjf").isSome = true ∧
      (PublicKeyFromBase58 "TSLvdd1pWpHVjahSpsvCXUbgwsL3JAcvokwaKt1eokM").isSome = true ∧
      (PublicKeyFromBase58 "Ce6TQqeHC9p8KetsN6JsjHK7UTZk7nasjjnr7XxXp9F1").isSome = true ∧
      (PublicKeyFromBase58 "CebN5WGQ4jvEPvsVU4EoHEpgzq1VV7AbicfhtW4xC9iM").isSome = true ∧
      (PublicKeyFromBase58 "68yFSZxzLWJXkxxRGydZ63C6mHx1NLEDWmwN9Lb5yySg").isSome = true := by
  decide

/-- A loop that assigns each element to the accumulator leaves the last one. -/
theorem foldl_assign_eq_getLast (out : List PriorizationFeeResult) (z : Nat) (h : out ≠ []) :
    out.foldl (fun _ fee => fee.PrioritizationFee) z = (out.getLast h).PrioritizationFee := by
  induction out generalizing z with
  | nil => exact absurd rfl h
  | cons a rest ih =>
    cases rest with
    | nil => simp
    | cons b rest2 =>
      simp only [List.foldl_cons]
      have := ih (a.PrioritizationFee) (by simp)
      simp only [List.foldl_cons] at this
      rw [this]
      simp

/-- What `getComputUnitPriceInstr` computes on a non-empty sample list: the
last sample's fee divided by the number of samples. -/
theorem getComputUnitPriceInstr_price (env : Env) (g : Globals) (user : PrivateKey)
    (out : List PriorizationFeeResult) (hne : out ≠ [])
    (h : env.GetRecentPrioritizationFees (feeAccounts env g user) = .ok out) :
    (getComputUnitPriceInstr env g user).outcome =
      .value (.ok ⟨(out.getLast hne).PrioritizationFee / out.length⟩) := by
  rw [getComputUnitPriceInstr_eq, h]
  have hlen : out.length ≠ 0 := by simpa using hne
  simp [hlen, foldl_assign_eq_getLast out 0 hne]

/-- A zero of either sign is not greater than zero. -/
theorem gtZero_of_isZero (f : Float64) (h : f.isZero = true) : f.gtZero = false := by
  simp [Float64.gtZero, h]

/-- The account list of the fee query does not mention the fee recipient. -/
theorem feeAccounts_SetDevnetMode (env : Env) (g : Globals) (user : PrivateKey) :
    feeAccounts env (SetDevnetMode g) user = feeAccounts env g user := rfl

/-- The arguments of the token-creation instruction do not mention the fee
recipient. -/
theorem createInstruction_SetDevnetMode (env : Env) (g : Globals) (user : PrivateKey)
    (mint : Wallet) (name symbol uri : String) (bc abc metadata : PublicKey) :
    createInstruction env (SetDevnetMode g) user mint name symbol uri bc abc metadata =
      createInstruction env g user mint name symbol uri bc abc metadata := rfl

/-- The calls of a run follow `stageOrder`, none skipped. -/
theorem CreateToken_trace_in_order (env : Env) (g : Globals) (user : PrivateKey)
    (mint : Wallet) (name symbol uri : String) (buyAmountSol percentage : Float64) :
    ((CreateToken env g user mint name symbol uri buyAmountSol percentage).trace.map
        (fun ev => ev.call.kind)) <+: stageOrder buyAmountSol.gtZero := by
  rw [CreateToken_eq]
  simp only [CreateToken.submit_eq]
  repeat' split
  all_goals simp only [List.map_cons, List.map_nil, List.map_append, Call.kind, stageOrder,
    List.cons_append, List.nil_append, List.append_nil]
  all_goals first
    | (cases buyAmountSol.gtZero <;> decide)
    | (simp_all; try decide)

/-- Only the last call of a run can have failed. -/
theorem CreateToken_failure_last (env : Env) (g : Globals) (user : PrivateKey)
    (mint : Wallet) (name symbol uri : String) (buyAmountSol percentage : Float64) :
    ∀ ev ∈ (CreateToken env g user mint name symbol uri buyAmountSol percentage).trace.dropLast,
      ev.ok = true := by
  rw [CreateToken_eq]
  simp only [CreateToken.submit_eq]
  repeat' split
  all_goals simp [List.dropLast]

/-- A failed fee query is never followed by the blockhash fetch; a failed
buy-instruction builder always comes after a successful blockhash fetch. -/
theorem CreateToken_blockhash_position (env : Env) (g : Globals) (user : PrivateKey)
    (mint : Wallet) (name symbol uri : String) (buyAmountSol percentage : Float64) :
    ((∃ ev ∈ (CreateToken env g user mint name symbol uri buyAmountSol percentage).trace,
        ev.call.kind = .GetRecentPrioritizationFees ∧ ev.ok = false) →
      ∀ ev ∈ (CreateToken env g user mint name symbol uri buyAmountSol percentage).trace,
        ev.call.kind ≠ .GetLatestBlockhash) ∧
    ((∃ ev ∈ (CreateToken env g user mint name symbol uri buyAmountSol percentage).trace,
        ev.call.kind = .getBuyInstructions ∧ ev.ok = false) →
      ⟨.GetLatestBlockhash .CommitmentFinalized, true⟩ ∈
        (CreateToken env g user mint name symbol uri buyAmountSol percentage).trace) := by
  rw [CreateToken_eq]
  simp only [CreateToken.submit_eq]
  repeat' split
  all_goals simp [Call.kind]

/-- A run that panics has not called `SendAndConfirmTransaction`. -/
theorem CreateToken_panic_sends_nothing (env : Env) (g : Globals) (user : PrivateKey)
    (mint : Wallet) (name symbol uri : String) (buyAmountSol percentage : Float64) (msg : String)
    (h : (CreateToken env g user mint name symbol uri buyAmountSol percentage).outcome =
      .panic msg) :
    (CreateToken env g user mint name symbol uri buyAmountSol percentage).trace.countP
      (fun ev => ev.call.kind == .SendAndConfirmTransaction) = 0 := by
  rw [CreateToken_eq] at h ⊢
  simp only [CreateToken.submit_eq] at h ⊢
  repeat' split
  all_goals simp_all [Call.kind]

/-- A run in which no call failed either went through every stage, submission
included, and returned a signature with a nil error, or is the run that
panics on an empty fee sample list right after the fee query. -/
theorem CreateToken_progress (env : Env) (g : Globals) (user : PrivateKey)
    (mint : Wallet) (name symbol uri : String) (buyAmountSol percentage : Float64)
    (h : ∀ ev ∈ (CreateToken env g user mint name symbol uri buyAmountSol percentage).trace,
      ev.ok = true) :
    ((CreateToken env g user mint name symbol uri buyAmountSol percentage).trace.map
          (fun ev => ev.call.kind) = stageOrder buyAmountSol.gtZero ∧
        ∃ sig, (CreateToken env g user mint name symbol uri buyAmountSol percentage).outcome =
          .value (sig, none)) ∨
      (env.GetRecentPrioritizationFees (feeAccounts env g user) = .ok [] ∧
        (CreateToken env g user mint name symbol uri buyAmountSol percentage).trace.map
          (fun ev => ev.call.kind) =
          [.FindProgramAddress, .FindAssociatedTokenAddress, .FindTokenMetadataAddress,
            .GetRecentPrioritizationFees] ∧
        (CreateToken env g user mint name symbol uri buyAmountSol percentage).outcome =
          .panic "runtime error: integer divide by zero") := by
  rw [CreateToken_eq] at h ⊢
  simp only [CreateToken.submit_eq] at h ⊢
  repeat' split
  all_goals simp_all [Call.kind, stageOrder]

/-- A run in which a call failed returns the empty signature and an error. -/
theorem CreateToken_failure_returns_error (env : Env) (g : Globals) (user : PrivateKey)
    (mint : Wallet) (name symbol uri : String) (buyAmountSol percentage : Float64)
    (h : ∃ ev ∈ (CreateToken env g user mint name symbol uri buyAmountSol percentage).trace,
      ev.ok = false) :
    ∃ err, (CreateToken env g user mint name symbol uri buyAmountSol percentage).outcome =
      .value ("", some err) := by
  rw [CreateToken_eq] at h ⊢
  simp only [CreateToken.submit_eq] at h ⊢
  repeat' split
  all_goals simp_all

/-- When fee estimation does not yield an instruction, whether by an error or
by the panic, the blockhash is never fetched. -/
theorem CreateToken_fee_failure_no_blockhash (env : Env) (g : Globals) (user : PrivateKey)
    (mint : Wallet) (name symbol uri : String) (buyAmountSol percentage : Float64)
    (h : ∀ cupInst, (getComputUnitPriceInstr env g user).outcome ≠ .value (.ok cupInst)) :
    ∀ ev ∈ (CreateToken env g user mint name symbol uri buyAmountSol percentage).trace,
      ev.call.kind ≠ .GetLatestBlockhash := by
  rw [getComputUnitPriceInstr_eq] at h
  rw [CreateToken_eq]
  simp only [CreateToken.submit_eq]
  repeat' split
  all_goals simp_all [Call.kind]

/-- When both derivations, the metadata derivation, fee estimation and the
blockhash fetch succeed and the buy amount is not greater than zero, the
transaction builder is called with exactly the three instructions, the fetched
blockhash and the user as payer. -/
theorem CreateToken_reaches_builder (env : Env) (g : Globals) (user : PrivateKey)
    (mint : Wallet) (name symbol uri : String) (buyAmountSol percentage : Float64)
    (hbuy : buyAmountSol.gtZero = false)
    (bondingCurveData : BondingCurvePublicKeys) (metadata : PublicKey) (bump : Nat)
    (cupInst : SetComputeUnitPrice) (recent : Hash)
    (h1 : (getBondingCurveAndAssociatedBondingCurve env g mint.PublicKey).outcome =
      .value (.ok bondingCurveData))
    (h2 : env.FindTokenMetadataAddress mint.PublicKey = .ok (metadata, bump))
    (h3 : (getComputUnitPriceInstr env g user).outcome = .value (.ok cupInst))
    (h4 : env.GetLatestBlockhash .CommitmentFinalized = .ok recent) :
    ⟨.NewTransaction
        [.computeUnitLimit ⟨250000⟩, .computeUnitPrice cupInst,
          createInstruction env g user mint name symbol uri bondingCurveData.BondingCurve
            bondingCurveData.AssociatedBondingCurve metadata]
        recent user.PublicKey,
      isOk (env.NewTransaction
        [.computeUnitLimit ⟨250000⟩, .computeUnitPrice cupInst,
          createInstruction env g user mint name symbol uri bondingCurveData.BondingCurve
            bondingCurveData.AssociatedBondingCurve metadata]
        recent user.PublicKey)⟩ ∈
      (CreateToken env g user mint name symbol uri buyAmountSol percentage).trace := by
  obtain ⟨bondingCurve, associatedBondingCurve⟩ := bondingCurveData
  obtain ⟨price⟩ := cupInst
  rw [getBondingCurveAndAssociatedBondingCurve_eq] at h1
  rw [getComputUnitPriceInstr_eq] at h3
  rw [CreateToken_eq]
  simp only [CreateToken.submit_eq]
  repeat' split
  all_goals simp_all [NewSetComputeUnitLimitInstruction, NewSetComputeUnitPriceInstruction,
    SetComputeUnitLimit.Build, SetComputeUnitPrice.Build, isOk]

/-- With a buy amount that is not greater than zero, every instruction list
handed to the transaction builder is exactly the three instructions. -/
theorem CreateToken_builder_receives_three (env : Env) (g : Globals) (user : PrivateKey)
    (mint : Wallet) (name symbol uri : String) (buyAmountSol percentage : Float64)
    (hbuy : buyAmountSol.gtZero = false)
    (instructions : List Instruction) (blockhash : Hash) (payer : PublicKey) (ok : Bool)
    (h : ⟨.NewTransaction instructions blockhash payer, ok⟩ ∈
      (CreateToken env g user mint name symbol uri buyAmountSol percentage).trace) :
    ∃ cupInst bondingCurveData metadata bump,
      (getComputUnitPriceInstr env g user).outcome = .value (.ok cupInst) ∧
      (getBondingCurveAndAssociatedBondingCurve env g mint.PublicKey).outcome =
        .value (.ok bondingCurveData) ∧
      env.FindTokenMetadataAddress mint.PublicKey = .ok (metadata, bump) ∧
      instructions =
        [.computeUnitLimit ⟨250000⟩, .computeUnitPrice cupInst,
          createInstruction env g user mint name symbol uri bondingCurveData.BondingCurve
            bondingCurveData.AssociatedBondingCurve metadata] := by
  rw [CreateToken_eq] at h
  rw [getComputUnitPriceInstr_eq, getBondingCurveAndAssociatedBondingCurve_eq]
  simp only [CreateToken.submit_eq] at h
  repeat' split at h
  all_goals simp_all [NewSetComputeUnitLimitInstruction, NewSetComputeUnitPriceInstruction,
    SetComputeUnitLimit.Build, SetComputeUnitPrice.Build]

/-- Fee estimation does not read the fee recipient. -/
theorem getComputUnitPriceInstr_SetDevnetMode (env : Env) (g : Globals) (user : PrivateKey) :
    getComputUnitPriceInstr env (SetDevnetMode g) user = getComputUnitPriceInstr env g user :=
  rfl

/-- Address derivation does not read the package variables. -/
theorem getBondingCurveAndAssociatedBondingCurve_globals (env : Env) (g g2 : Globals)
    (mint : PublicKey) :
    getBondingCurveAndAssociatedBondingCurve env g2 mint =
      getBondingCurveAndAssociatedBondingCurve env g mint :=
  rfl

/-- Every instruction list handed to the transaction builder starts with the
compute-unit-limit instruction, the compute-unit-price instruction of the fee
estimator and the token-creation instruction. -/
theorem CreateToken_builder_head (env : Env) (g : Globals) (user : PrivateKey)
    (mint : Wallet) (name symbol uri : String) (buyAmountSol percentage : Float64)
    (instructions : List Instruction) (blockhash : Hash) (payer : PublicKey) (ok : Bool)
    (h : ⟨.NewTransaction instructions blockhash payer, ok⟩ ∈
      (CreateToken env g user mint name symbol uri buyAmountSol percentage).trace) :
    ∃ cupInst bondingCurveData metadata bump,
      (getComputUnitPriceInstr env g user).outcome = .value (.ok cupInst) ∧
      (getBondingCurveAndAssociatedBondingCurve env g mint.PublicKey).outcome =
        .value (.ok bondingCurveData) ∧
      env.FindTokenMetadataAddress mint.PublicKey = .ok (metadata, bump) ∧
      instructions.take 3 =
        [.computeUnitLimit ⟨250000⟩, .computeUnitPrice cupInst,
          createInstruction env g user mint name symbol uri bondingCurveData.BondingCurve
            bondingCurveData.AssociatedBondingCurve metadata] ∧
      instructions[2]? = some (createInstruction env g user mint name symbol uri
        bondingCurveData.BondingCurve bondingCurveData.AssociatedBondingCurve metadata) := by
  rw [CreateToken_eq] at h
  rw [getComputUnitPriceInstr_eq, getBondingCurveAndAssociatedBondingCurve_eq]
  simp only [CreateToken.submit_eq] at h
  repeat' split at h
  all_goals simp_all [NewSetComputeUnitLimitInstruction, NewSetComputeUnitPriceInstruction,
    SetComputeUnitLimit.Build, SetComputeUnitPrice.Build]

/-- A run in which a call made before the submission returns an error returns
the empty signature together with an error and never calls
`SendAndConfirmTransaction`. -/
theorem CreateToken_failure_before_submission (env : Env) (g : Globals) (user : PrivateKey)
    (mint : Wallet) (name symbol uri : String) (buyAmountSol percentage : Float64)
    (h : ∃ ev ∈ (CreateToken env g user mint name symbol uri buyAmountSol percentage).trace,
      ev.ok = false ∧ ev.call.kind ≠ .SendAndConfirmTransaction) :
    (∃ err, (CreateToken env g user mint name symbol uri buyAmountSol percentage).outcome =
      .value ("", some err)) ∧
    (CreateToken env g user mint name symbol uri buyAmountSol percentage).trace.countP
      (fun ev => ev.call.kind == .SendAndConfirmTransaction) = 0 := by
  rw [CreateToken_eq] at h ⊢
  simp only [CreateToken.submit_eq] at h ⊢
  repeat' split
  all_goals simp_all [Call.kind]

/-! ## The claims -/

/-- Claim C1, as the code behaves: when `GetRecentPrioritizationFees` returns an
empty list and a nil error, `getComputUnitPriceInstr` does not return an error
to its caller; the division `median /= length` panics with an integer division
by zero. -/
theorem getComputUnitPriceInstr_empty_panics (env : Env) (g : Globals) (user : PrivateKey)
    (h : env.GetRecentPrioritizationFees (feeAccounts env g user) = .ok []) :
    (getComputUnitPriceInstr env g user).outcome =
        .panic "runtime error: integer divide by zero" ∧
      ∀ result, (getComputUnitPriceInstr env g user).outcome ≠ .value result := by
  rw [getComputUnitPriceInstr_eq, h]
  simp

/-- Claim C1 at the example environment without fee samples. -/
theorem getComputUnitPriceInstr_empty_panics_witness :
    Example.envNoSamples.GetRecentPrioritizationFees
        (feeAccounts Example.envNoSamples Globals.init Example.user) = .ok [] ∧
      ((getComputUnitPriceInstr Example.envNoSamples Globals.init Example.user).outcome =
          .panic "runtime error: integer divide by zero" ∧
        ∀ result, (getComputUnitPriceInstr Example.envNoSamples Globals.init Example.user).outcome ≠
          .value result) :=
  ⟨rfl, getComputUnitPriceInstr_empty_panics Example.envNoSamples Globals.init Example.user rfl⟩

/-- Claim C2, as the code behaves on the samples 100, 200, 600: the price of
the returned instruction is 200, the last sample divided by the number of
samples, while the arithmetic mean of the samples is 300. -/
theorem getComputUnitPriceInstr_not_mean :
    Example.env.GetRecentPrioritizationFees (feeAccounts Example.env Globals.init Example.user) =
        .ok [⟨1, 100⟩, ⟨2, 200⟩, ⟨3, 600⟩] ∧
      (getComputUnitPriceInstr Example.env Globals.init Example.user).outcome =
        .value (.ok ⟨200⟩) ∧
      specMeanFee [⟨1, 100⟩, ⟨2, 200⟩, ⟨3, 600⟩] = 300 := by
  refine ⟨rfl, rfl, by decide⟩

/-- Claim C3: whenever `CreateToken` calls the transaction builder, the
instruction list it passes has the set-compute-unit-limit instruction with
limit 250000 at index 0, the set-compute-unit-price instruction returned by
`getComputUnitPriceInstr` at index 1 and the token-creation instruction at
index 2; for a buy amount greater than zero the list is those three followed
by the result of `getBuyInstructions`, so its length is 3 plus the number of
buy instructions and the buy instructions start at index 3. -/
theorem CreateToken_instruction_order (env : Env) (g : Globals) (user : PrivateKey)
    (mint : Wallet) (name symbol uri : String) (buyAmountSol percentage : Float64)
    (instructions : List Instruction) (blockhash : Hash) (payer : PublicKey) (ok : Bool)
    (h : ⟨.NewTransaction instructions blockhash payer, ok⟩ ∈
      (CreateToken env g user mint name symbol uri buyAmountSol percentage).trace) :
    ∃ cupInst bondingCurveData metadata bump,
      (getComputUnitPriceInstr env g user).outcome = .value (.ok cupInst) ∧
      (getBondingCurveAndAssociatedBondingCurve env g mint.PublicKey).outcome =
        .value (.ok bondingCurveData) ∧
      env.FindTokenMetadataAddress mint.PublicKey = .ok (metadata, bump) ∧
      instructions[0]? = some (.computeUnitLimit ⟨250000⟩) ∧
      instructions[1]? = some (.computeUnitPrice cupInst) ∧
      instructions[2]? = some (createInstruction env g user mint name symbol uri
        bondingCurveData.BondingCurve bondingCurveData.AssociatedBondingCurve metadata) ∧
      (buyAmountSol.gtZero = true →
        ∃ buyInstructions,
          env.getBuyInstructions g mint.PublicKey user.PublicKey (env.SolToLamp buyAmountSol)
            percentage = .ok buyInstructions ∧
          instructions =
            [.computeUnitLimit ⟨250000⟩, .computeUnitPrice cupInst,
              createInstruction env g user mint name symbol uri bondingCurveData.BondingCurve
                bondingCurveData.AssociatedBondingCurve metadata] ++ buyInstructions ∧
          instructions.length = 3 + buyInstructions.length ∧
          instructions.drop 3 = buyInstructions) := by
  rw [CreateToken_eq] at h
  rw [getComputUnitPriceInstr_eq, getBondingCurveAndAssociatedBondingCurve_eq]
  simp only [CreateToken.submit_eq] at h
  repeat' split at h
  all_goals simp_all [NewSetComputeUnitLimitInstruction, NewSetComputeUnitPriceInstruction,
    SetComputeUnitLimit.Build, SetComputeUnitPrice.Build]
  all_goals omega

/-- Claim C3 at the example run with buy amount 1.5: the builder receives five
instructions, the last two being the buy instructions. -/
theorem CreateToken_instruction_order_witness :
    (⟨.NewTransaction
          ([.computeUnitLimit ⟨250000⟩, .computeUnitPrice ⟨200⟩, Example.createInst] ++
            Example.buyInstructions Globals.init (Example.key 2) (Example.key 1) 1500000000)
          Example.blockhash (Example.key 1), true⟩ ∈
        (Example.run Example.env Globals.init Example.onePointFive).trace) ∧
      ∃ cupInst bondingCurveData metadata bump,
        (getComputUnitPriceInstr Example.env Globals.init Example.user).outcome =
          .value (.ok cupInst) ∧
        (getBondingCurveAndAssociatedBondingCurve Example.env Globals.init
          Example.mint.PublicKey).outcome = .value (.ok bondingCurveData) ∧
        Example.env.FindTokenMetadataAddress Example.mint.PublicKey = .ok (metadata, bump) ∧
        ([.computeUnitLimit ⟨250000⟩, .computeUnitPrice ⟨200⟩, Example.createInst] ++
            Example.buyInstructions Globals.init (Example.key 2) (Example.key 1) 1500000000)[0]? =
          some (.computeUnitLimit ⟨250000⟩) ∧
        ([.computeUnitLimit ⟨250000⟩, .computeUnitPrice ⟨200⟩, Example.createInst] ++
            Example.buyInstructions Globals.init (Example.key 2) (Example.key 1) 1500000000)[1]? =
          some (.computeUnitPrice cupInst) ∧
        ([.computeUnitLimit ⟨250000⟩, .computeUnitPrice ⟨200⟩, Example.createInst] ++
            Example.buyInstructions Globals.init (Example.key 2) (Example.key 1) 1500000000)[2]? =
          some (createInstruction Example.env Globals.init Example.user Example.mint "Token"
            "TKN" "https://example.org/t.json" bondingCurveData.BondingCurve
            bondingCurveData.AssociatedBondingCurve metadata) ∧
        (Example.onePointFive.gtZero = true →
          ∃ buyInstructions,
            Example.env.getBuyInstructions Globals.init Example.mint.PublicKey
              Example.user.PublicKey (Example.env.SolToLamp Example.onePointFive)
              Example.twentyFive = .ok buyInstructions ∧
            ([.computeUnitLimit ⟨250000⟩, .computeUnitPrice ⟨200⟩, Example.createInst] ++
                Example.buyInstructions Globals.init (Example.key 2) (Example.key 1) 1500000000) =
              [.computeUnitLimit ⟨250000⟩, .computeUnitPrice cupInst,
                createInstruction Example.env Globals.init Example.user Example.mint "Token"
                  "TKN" "https://example.org/t.json" bondingCurveData.BondingCurve
                  bondingCurveData.AssociatedBondingCurve metadata] ++ buyInstructions ∧
            ([.computeUnitLimit ⟨250000⟩, .computeUnitPrice ⟨200⟩, Example.createInst] ++
                Example.buyInstructions Globals.init (Example.key 2) (Example.key 1)
                  1500000000).length = 3 + buyInstructions.length ∧
            ([.computeUnitLimit ⟨250000⟩, .computeUnitPrice ⟨200⟩, Example.createInst] ++
                Example.buyInstructions Globals.init (Example.key 2) (Example.key 1)
                  1500000000).drop 3 = buyInstructions) :=
  ⟨by decide,
    CreateToken_instruction_order Example.env Globals.init Example.user Example.mint "Token"
      "TKN" "https://example.org/t.json" Example.onePointFive Example.twentyFive
      ([.computeUnitLimit ⟨250000⟩, .computeUnitPrice ⟨200⟩, Example.createInst] ++
        Example.buyInstructions Globals.init (Example.key 2) (Example.key 1) 1500000000)
      Example.blockhash (Example.key 1) true (by decide)⟩

/-- Claim C4: when the buy amount is zero, `getBuyInstructions` is never
called; every instruction list handed to the transaction builder has exactly 3
elements, namely the compute-unit-limit instruction with limit 250000, the
compute-unit-price instruction returned by `getComputUnitPriceInstr` and the
token-creation instruction; and the list is really assembled: whenever the
address derivations, fee estimation and the blockhash fetch succeed, the
transaction builder is called with exactly that 3-element list, the fetched
blockhash and the user as payer. -/
theorem CreateToken_zero_buy (env : Env) (g : Globals) (user : PrivateKey)
    (mint : Wallet) (name symbol uri : String) (buyAmountSol percentage : Float64)
    (h0 : buyAmountSol.isZero = true) :
    (∀ ev ∈ (CreateToken env g user mint name symbol uri buyAmountSol percentage).trace,
        ev.call.kind ≠ .getBuyInstructions) ∧
      (∀ instructions blockhash payer ok,
        ⟨.NewTransaction instructions blockhash payer, ok⟩ ∈
            (CreateToken env g user mint name symbol uri buyAmountSol percentage).trace →
          instructions.length = 3 ∧
          ∃ cupInst bondingCurveData metadata bump,
            (getComputUnitPriceInstr env g user).outcome = .value (.ok cupInst) ∧
            (getBondingCurveAndAssociatedBondingCurve env g mint.PublicKey).outcome =
              .value (.ok bondingCurveData) ∧
            env.FindTokenMetadataAddress mint.PublicKey = .ok (metadata, bump) ∧
            instructions =
              [.computeUnitLimit ⟨250000⟩, .computeUnitPrice cupInst,
                createInstruction env g user mint name symbol uri
                  bondingCurveData.BondingCurve bondingCurveData.AssociatedBondingCurve
                  metadata]) ∧
      (⟨.GetLatestBlockhash .CommitmentFinalized, true⟩ ∈
          (CreateToken env g user mint name symbol uri buyAmountSol percentage).trace →
        ∃ instructions blockhash payer ok,
          ⟨.NewTransaction instructions blockhash payer, ok⟩ ∈
            (CreateToken env g user mint name symbol uri buyAmountSol percentage).trace) ∧
      (∀ bondingCurveData metadata bump cupInst recent,
        (getBondingCurveAndAssociatedBondingCurve env g mint.PublicKey).outcome =
            .value (.ok bondingCurveData) →
          env.FindTokenMetadataAddress mint.PublicKey = .ok (metadata, bump) →
          (getComputUnitPriceInstr env g user).outcome = .value (.ok cupInst) →
          env.GetLatestBlockhash .CommitmentFinalized = .ok recent →
          ⟨.NewTransaction
              [.computeUnitLimit ⟨250000⟩, .computeUnitPrice cupInst,
                createInstruction env g user mint name symbol uri
                  bondingCurveData.BondingCurve bondingCurveData.AssociatedBondingCurve
                  metadata]
              recent user.PublicKey,
            isOk (env.NewTransaction
              [.computeUnitLimit ⟨250000⟩, .computeUnitPrice cupInst,
                createInstruction env g user mint name symbol uri
                  bondingCurveData.BondingCurve bondingCurveData.AssociatedBondingCurve
                  metadata]
              recent user.PublicKey)⟩ ∈
            (CreateToken env g user mint name symbol uri buyAmountSol percentage).trace) := by
  have hz := gtZero_of_isZero buyAmountSol h0
  refine ⟨?_, ?_, ?_, ?_⟩
  · rw [CreateToken_eq]
    simp only [CreateToken.submit_eq]
    repeat' split
    all_goals simp_all [Call.kind]
  · intro instructions blockhash payer ok h
    obtain ⟨cupInst, bondingCurveData, metadata, bump, h1, h2, h3, h4⟩ :=
      CreateToken_builder_receives_three env g user mint name symbol uri buyAmountSol
        percentage hz instructions blockhash payer ok h
    refine ⟨?_, cupInst, bondingCurveData, metadata, bump, h1, h2, h3, h4⟩
    rw [h4]
    rfl
  · rw [CreateToken_eq]
    simp only [CreateToken.submit_eq]
    repeat' split
    all_goals simp_all [Call.kind]
  · intro bondingCurveData metadata bump cupInst recent h1 h2 h3 h4
    exact CreateToken_reaches_builder env g user mint name symbol uri buyAmountSol percentage
      hz bondingCurveData metadata bump cupInst recent h1 h2 h3 h4

/-- Claim C4 at the example run with buy amount zero: the run makes its eight
calls without `getBuyInstructions`, and the transaction builder receives the
list of the three instructions. -/
theorem CreateToken_zero_buy_witness :
    Example.zero.isZero = true ∧
      (Example.run Example.env Globals.init Example.zero).trace.map Event.summary =
        [(.FindProgramAddress, true), (.FindAssociatedTokenAddress, true),
          (.FindTokenMetadataAddress, true), (.GetRecentPrioritizationFees, true),
          (.GetLatestBlockhash, true), (.NewTransaction, true), (.Sign, true),
          (.SendAndConfirmTransaction, true)] ∧
      assembledInstructions (Example.run Example.env Globals.init Example.zero).trace =
        some [.computeUnitLimit ⟨250000⟩, .computeUnitPrice ⟨200⟩, Example.createInst] ∧
      (⟨.NewTransaction
          [.computeUnitLimit ⟨250000⟩, .computeUnitPrice ⟨200⟩, Example.createInst]
          Example.blockhash (Example.key 1), true⟩ ∈
        (Example.run Example.env Globals.init Example.zero).trace) ∧
      (∀ ev ∈ (Example.run Example.env Globals.init Example.zero).trace,
        ev.call.kind ≠ .getBuyInstructions) ∧
      (∀ instructions blockhash payer ok,
        ⟨.NewTransaction instructions blockhash payer, ok⟩ ∈
            (Example.run Example.env Globals.init Example.zero).trace →
          instructions.length = 3) :=
  ⟨rfl, by decide, by decide,
    (CreateToken_zero_buy Example.env Globals.init Example.user Example.mint "Token" "TKN"
      "https://example.org/t.json" Example.zero Example.twentyFive rfl).2.2.2
      ⟨Example.key 3, Example.key 4⟩ (Example.key 5) 253 ⟨200⟩ Example.blockhash
      rfl rfl rfl rfl,
    (CreateToken_zero_buy Example.env Globals.init Example.user Example.mint "Token" "TKN"
      "https://example.org/t.json" Example.zero Example.twentyFive rfl).1,
    fun instructions blockhash payer ok h =>
      ((CreateToken_zero_buy Example.env Globals.init Example.user Example.mint "Token" "TKN"
        "https://example.org/t.json" Example.zero Example.twentyFive rfl).2.1
        instructions blockhash payer ok h).1⟩

/-- Claim C5: `SetDevnetMode` sets `pumpFunFeeRecipient` to the devnet address
68yFSZxzLWJXkxxRGydZ63C6mHx1NLEDWmwN9Lb5yySg, a valid key different from the
mainnet default CebN5WGQ4jvEPvsVU4EoHEpgzq1VV7AbicfhtW4xC9iM; it leaves
`globalPumpFunAddress`, `pumpFunMintAuthority` and `pumpFunEventAuthority` as
they were; and a second call changes nothing. -/
theorem SetDevnetMode_frame (g : Globals) :
    (SetDevnetMode g).pumpFunFeeRecipient =
        MustPublicKeyFromBase58 "68yFSZxzLWJXkxxRGydZ63C6mHx1NLEDWmwN9Lb5yySg" ∧
      PublicKeyFromBase58 "68yFSZxzLWJXkxxRGydZ63C6mHx1NLEDWmwN9Lb5yySg" =
        some ⟨[76, 85, 25, 233, 135, 100, 18, 184, 82, 202, 247, 34, 164, 40, 29, 205, 107, 132,
          106, 10, 18, 117, 209, 58, 162, 150, 146, 36, 232, 91, 101, 177]⟩ ∧
      Globals.init.pumpFunFeeRecipient =
        MustPublicKeyFromBase58 "CebN5WGQ4jvEPvsVU4EoHEpgzq1VV7AbicfhtW4xC9iM" ∧
      (SetDevnetMode g).pumpFunFeeRecipient ≠ Globals.init.pumpFunFeeRecipient ∧
      (SetDevnetMode g).globalPumpFunAddress = g.globalPumpFunAddress ∧
      (SetDevnetMode g).pumpFunMintAuthority = g.pumpFunMintAuthority ∧
      (SetDevnetMode g).pumpFunEventAuthority = g.pumpFunEventAuthority ∧
      SetDevnetMode (SetDevnetMode g) = SetDevnetMode g := by
  refine ⟨rfl, by decide, rfl, ?_, rfl, rfl, rfl, rfl⟩
  show MustPublicKeyFromBase58 "68yFSZxzLWJXkxxRGydZ63C6mHx1NLEDWmwN9Lb5yySg" ≠
    MustPublicKeyFromBase58 "CebN5WGQ4jvEPvsVU4EoHEpgzq1VV7AbicfhtW4xC9iM"
  decide

/-- Claim C6 refuted at the example run with buy amount 1.5: the
token-creation instruction assembled after `SetDevnetMode` is the very
instruction assembled in mainnet mode, and the devnet fee recipient is not
among its accounts. -/
theorem CreateToken_devnet_create_instruction_same :
    (assembledInstructions
        (Example.run Example.env (SetDevnetMode Globals.init) Example.onePointFive).trace).bind
        (fun l => l[2]?) = some Example.createInst ∧
      (assembledInstructions
        (Example.run Example.env Globals.init Example.onePointFive).trace).bind
        (fun l => l[2]?) = some Example.createInst ∧
      (SetDevnetMode Globals.init).pumpFunFeeRecipient ∉ Example.createInst.Accounts := by
  refine ⟨by rfl, by rfl, by decide⟩

/-- Claim C6 as amended: for the same user, mint, name, symbol and uri, the
token-creation instruction that `CreateToken` assembles after `SetDevnetMode`
is identical to the one it assembles in mainnet mode. Whenever the transaction
builder is reached both with the package variables `g` and with
`SetDevnetMode g`, whatever the buy amounts, the instruction at index 2 of
both lists is the token-creation instruction built from `g`, and the two
compute-budget instructions before it agree as well. -/
theorem CreateToken_create_instruction_mode_independent (env : Env) (g : Globals)
    (user : PrivateKey) (mint : Wallet) (name symbol uri : String)
    (buyAmountSol percentage buyAmountSol2 percentage2 : Float64)
    (instructions instructions2 : List Instruction) (blockhash blockhash2 : Hash)
    (payer payer2 : PublicKey) (ok ok2 : Bool)
    (h : ⟨.NewTransaction instructions blockhash payer, ok⟩ ∈
      (CreateToken env g user mint name symbol uri buyAmountSol percentage).trace)
    (h2 : ⟨.NewTransaction instructions2 blockhash2 payer2, ok2⟩ ∈
      (CreateToken env (SetDevnetMode g) user mint name symbol uri buyAmountSol2
        percentage2).trace) :
    instructions2.take 3 = instructions.take 3 ∧
      ∃ bondingCurve associatedBondingCurve metadata,
        instructions2[2]? = some (createInstruction env g user mint name symbol uri
          bondingCurve associatedBondingCurve metadata) ∧
        instructions[2]? = some (createInstruction env g user mint name symbol uri
          bondingCurve associatedBondingCurve metadata) := by
  obtain ⟨c1, b1, m1, p1, hc1, hb1, hm1, ht1, hi1⟩ :=
    CreateToken_builder_head env g user mint name symbol uri buyAmountSol percentage
      instructions blockhash payer ok h
  obtain ⟨c2, b2, m2, p2, hc2, hb2, hm2, ht2, hi2⟩ :=
    CreateToken_builder_head env (SetDevnetMode g) user mint name symbol uri buyAmountSol2
      percentage2 instructions2 blockhash2 payer2 ok2 h2
  rw [getComputUnitPriceInstr_SetDevnetMode, hc1] at hc2
  rw [getBondingCurveAndAssociatedBondingCurve_globals env g (SetDevnetMode g), hb1] at hb2
  rw [hm1] at hm2
  rw [createInstruction_SetDevnetMode] at ht2 hi2
  have e1 : c1 = c2 := by simpa using hc2
  have e2 : b1 = b2 := by simpa using hb2
  have e3 : m1 = m2 := by
    have := hm2
    simp only [Except.ok.injEq, Prod.mk.injEq] at this
    exact this.1
  subst e1 e2 e3
  exact ⟨by rw [ht1, ht2], b1.BondingCurve, b1.AssociatedBondingCurve, m1, hi2, hi1⟩

/-- Claim C6 as amended, at the example runs with buy amount 1.5, where the buy
instructions do differ between the two modes. -/
theorem CreateToken_create_instruction_mode_independent_witness :
    (⟨.NewTransaction
          ([.computeUnitLimit ⟨250000⟩, .computeUnitPrice ⟨200⟩, Example.createInst] ++
            Example.buyInstructions Globals.init (Example.key 2) (Example.key 1) 1500000000)
          Example.blockhash (Example.key 1), true⟩ ∈
        (Example.run Example.env Globals.init Example.onePointFive).trace) ∧
      (⟨.NewTransaction
          ([.computeUnitLimit ⟨250000⟩, .computeUnitPrice ⟨200⟩, Example.createInst] ++
            Example.buyInstructions (SetDevnetMode Globals.init) (Example.key 2) (Example.key 1)
              1500000000)
          Example.blockhash (Example.key 1), true⟩ ∈
        (Example.run Example.env (SetDevnetMode Globals.init) Example.onePointFive).trace) ∧
      (([.computeUnitLimit ⟨250000⟩, .computeUnitPrice ⟨200⟩, Example.createInst] ++
            Example.buyInstructions (SetDevnetMode Globals.init) (Example.key 2) (Example.key 1)
              1500000000).take 3 =
          ([.computeUnitLimit ⟨250000⟩, .computeUnitPrice ⟨200⟩, Example.createInst] ++
            Example.buyInstructions Globals.init (Example.key 2) (Example.key 1)
              1500000000).take 3 ∧
        ∃ bondingCurve associatedBondingCurve metadata,
          ([.computeUnitLimit ⟨250000⟩, .computeUnitPrice ⟨200⟩, Example.createInst] ++
              Example.buyInstructions (SetDevnetMode Globals.init) (Example.key 2)
                (Example.key 1) 1500000000)[2]? =
            some (createInstruction Example.env Globals.init Example.user Example.mint "Token"
              "TKN" "https://example.org/t.json" bondingCurve associatedBondingCurve metadata) ∧
          ([.computeUnitLimit ⟨250000⟩, .computeUnitPrice ⟨200⟩, Example.createInst] ++
              Example.buyInstructions Globals.init (Example.key 2) (Example.key 1)
                1500000000)[2]? =
            some (createInstruction Example.env Globals.init Example.user Example.mint "Token"
              "TKN" "https://example.org/t.json" bondingCurve associatedBondingCurve metadata)) :=
  ⟨by decide, by decide,
    CreateToken_create_instruction_mode_independent Example.env Globals.init Example.user
      Example.mint "Token" "TKN" "https://example.org/t.json" Example.onePointFive
      Example.twentyFive Example.onePointFive Example.twentyFive
      ([.computeUnitLimit ⟨250000⟩, .computeUnitPrice ⟨200⟩, Example.createInst] ++
        Example.buyInstructions Globals.init (Example.key 2) (Example.key 1) 1500000000)
      ([.computeUnitLimit ⟨250000⟩, .computeUnitPrice ⟨200⟩, Example.createInst] ++
        Example.buyInstructions (SetDevnetMode Globals.init) (Example.key 2) (Example.key 1)
          1500000000)
      Example.blockhash Example.blockhash (Example.key 1) (Example.key 1) true true
      (by decide) (by decide)⟩

/-- Claim C7, as the code behaves when the network has no fee sample: fee
estimation fails before submission, by the panic of the division by the
sample count, and `CreateToken` does not return the empty signature with an
error; it does not return at all. Its four calls up to the fee query all
succeeded and nothing was submitted. -/
theorem CreateToken_empty_samples_panics :
    Example.envNoSamples.GetRecentPrioritizationFees
        (feeAccounts Example.envNoSamples Globals.init Example.user) = .ok [] ∧
      (Example.run Example.envNoSamples Globals.init Example.onePointFive).outcome =
        .panic "runtime error: integer divide by zero" ∧
      (Example.run Example.envNoSamples Globals.init Example.onePointFive).trace.map
          Event.summary =
        [(.FindProgramAddress, true), (.FindAssociatedTokenAddress, true),
          (.FindTokenMetadataAddress, true), (.GetRecentPrioritizationFees, true)] := by
  refine ⟨rfl, by rfl, by decide⟩

/-- Claim C8 refuted at the example run whose buy-instruction builder fails:
instruction assembly fails, and the `GetLatestBlockhash` call has already been
made, successfully, right before `getBuyInstructions`. -/
theorem CreateToken_buy_failure_after_blockhash :
    ((Example.run Example.envBuyFails Globals.init Example.onePointFive).trace.map
        Event.summary) =
      [(.FindProgramAddress, true), (.FindAssociatedTokenAddress, true),
        (.FindTokenMetadataAddress, true), (.GetRecentPrioritizationFees, true),
        (.GetLatestBlockhash, true), (.getBuyInstructions, false)] := by
  decide

/-- Claim C8 as amended: the calls of every run of `CreateToken` follow the
order address derivation (bonding curve, associated bonding curve, metadata),
fee query, blockhash fetch, then for a positive buy amount the
buy-instruction builder, then build, sign and submit, with none skipped. The
run stops short of the last stage only where a call fails, in which case that
call is the last one and `CreateToken` returns the empty signature with an
error, or where fee estimation panics on an empty sample list right after the
fee query; otherwise it goes through every stage, submission included, and
returns a signature. A run in which fee estimation fails, by an error or by
the panic, has made no `GetLatestBlockhash` call, and a run in which
`getBuyInstructions` fails has made a successful `GetLatestBlockhash` call. -/
theorem CreateToken_stage_order (env : Env) (g : Globals) (user : PrivateKey)
    (mint : Wallet) (name symbol uri : String) (buyAmountSol percentage : Float64) :
    ((CreateToken env g user mint name symbol uri buyAmountSol percentage).trace.map
        (fun ev => ev.call.kind)) <+: stageOrder buyAmountSol.gtZero ∧
      (∀ ev ∈ (CreateToken env g user mint name symbol uri buyAmountSol percentage).trace.dropLast,
        ev.ok = true) ∧
      ((∀ ev ∈ (CreateToken env g user mint name symbol uri buyAmountSol percentage).trace,
          ev.ok = true) →
        ((CreateToken env g user mint name symbol uri buyAmountSol percentage).trace.map
              (fun ev => ev.call.kind) = stageOrder buyAmountSol.gtZero ∧
            ∃ sig, (CreateToken env g user mint name symbol uri buyAmountSol percentage).outcome =
              .value (sig, none)) ∨
          (env.GetRecentPrioritizationFees (feeAccounts env g user) = .ok [] ∧
            (CreateToken env g user mint name symbol uri buyAmountSol percentage).trace.map
              (fun ev => ev.call.kind) =
              [.FindProgramAddress, .FindAssociatedTokenAddress, .FindTokenMetadataAddress,
                .GetRecentPrioritizationFees] ∧
            (CreateToken env g user mint name symbol uri buyAmountSol percentage).outcome =
              .panic "runtime error: integer divide by zero")) ∧
      ((∃ ev ∈ (CreateToken env g user mint name symbol uri buyAmountSol percentage).trace,
          ev.ok = false) →
        ∃ err, (CreateToken env g user mint name symbol uri buyAmountSol percentage).outcome =
          .value ("", some err)) ∧
      ((∀ cupInst, (getComputUnitPriceInstr env g user).outcome ≠ .value (.ok cupInst)) →
        ∀ ev ∈ (CreateToken env g user mint name symbol uri buyAmountSol percentage).trace,
          ev.call.kind ≠ .GetLatestBlockhash) ∧
      ((∃ ev ∈ (CreateToken env g user mint name symbol uri buyAmountSol percentage).trace,
          ev.call.kind = .GetRecentPrioritizationFees ∧ ev.ok = false) →
        ∀ ev ∈ (CreateToken env g user mint name symbol uri buyAmountSol percentage).trace,
          ev.call.kind ≠ .GetLatestBlockhash) ∧
      ((∃ ev ∈ (CreateToken env g user mint name symbol uri buyAmountSol percentage).trace,
          ev.call.kind = .getBuyInstructions ∧ ev.ok = false) →
        ⟨.GetLatestBlockhash .CommitmentFinalized, true⟩ ∈
          (CreateToken env g user mint name symbol uri buyAmountSol percentage).trace) :=
  ⟨CreateToken_trace_in_order env g user mint name symbol uri buyAmountSol percentage,
    CreateToken_failure_last env g user mint name symbol uri buyAmountSol percentage,
    CreateToken_progress env g user mint name symbol uri buyAmountSol percentage,
    CreateToken_failure_returns_error env g user mint name symbol uri buyAmountSol percentage,
    CreateToken_fee_failure_no_blockhash env g user mint name symbol uri buyAmountSol percentage,
    (CreateToken_blockhash_position env g user mint name symbol uri buyAmountSol percentage).1,
    (CreateToken_blockhash_position env g user mint name symbol uri buyAmountSol percentage).2⟩

/-- Claim C8 as amended, at the example run with buy amount 1.5 in which every
call succeeds: the run makes all nine calls in order, submission included. -/
theorem CreateToken_stage_order_witness :
    (∀ ev ∈ (Example.run Example.env Globals.init Example.onePointFive).trace, ev.ok = true) ∧
      (Example.run Example.env Globals.init Example.onePointFive).trace.map Event.summary =
        [(.FindProgramAddress, true), (.FindAssociatedTokenAddress, true),
          (.FindTokenMetadataAddress, true), (.GetRecentPrioritizationFees, true),
          (.GetLatestBlockhash, true), (.getBuyInstructions, true), (.NewTransaction, true),
          (.Sign, true), (.SendAndConfirmTransaction, true)] ∧
      (((Example.run Example.env Globals.init Example.onePointFive).trace.map
            (fun ev => ev.call.kind) = stageOrder Example.onePointFive.gtZero ∧
          ∃ sig, (Example.run Example.env Globals.init Example.onePointFive).outcome =
            .value (sig, none)) ∨
        (Example.env.GetRecentPrioritizationFees
            (feeAccounts Example.env Globals.init Example.user) = .ok [] ∧
          (Example.run Example.env Globals.init Example.onePointFive).trace.map
            (fun ev => ev.call.kind) =
            [.FindProgramAddress, .FindAssociatedTokenAddress, .FindTokenMetadataAddress,
              .GetRecentPrioritizationFees] ∧
          (Example.run Example.env Globals.init Example.onePointFive).outcome =
            .panic "runtime error: integer divide by zero")) :=
  ⟨by decide, by decide,
    (CreateToken_stage_order Example.env Globals.init Example.user Example.mint "Token" "TKN"
      "https://example.org/t.json" Example.onePointFive Example.twentyFive).2.2.1
      (by decide)⟩

/-- Claim C9: the callback handed to `tx.Sign` returns, for every key, the
user's private key if the key is the user's public key, otherwise the mint
wallet's private key if the key is the mint's public key, otherwise nil; so a
returned private key always has the asked key as its public key, and nil is
returned exactly for keys that are neither the user's nor the mint's. Every
`Sign` call of `CreateToken` is made with this callback. -/
theorem signerGetter_resolves (env : Env) (g : Globals) (user : PrivateKey) (mint : Wallet)
    (name symbol uri : String) (buyAmountSol percentage : Float64) :
    (∀ key, signerGetter user mint key =
        if user.PublicKey = key then some user
        else if mint.PublicKey = key then some mint.PrivateKey
        else none) ∧
      (∀ key priv, signerGetter user mint key = some priv → priv.PublicKey = key) ∧
      (∀ key, signerGetter user mint key = none ↔
        (key ≠ user.PublicKey ∧ key ≠ mint.PublicKey)) ∧
      (∀ tx ok, ⟨.Sign tx, ok⟩ ∈
          (CreateToken env g user mint name symbol uri buyAmountSol percentage).trace →
        ok = isOk (env.Sign tx (signerGetter user mint))) := by
  refine ⟨?_, ?_, ?_, ?_⟩
  · intro key
    simp [signerGetter, PublicKey.Equals]
  · intro key priv h
    unfold signerGetter at h
    simp only [PublicKey.Equals] at h
    split at h
    · simp_all
    · split at h
      · simp_all [Wallet.PublicKey]
      · simp at h
  · intro key
    unfold signerGetter
    simp only [PublicKey.Equals]
    split
    · simp_all
    · split
      · simp_all
      · simp_all [eq_comm]
  · intro tx ok h
    rw [CreateToken_eq] at h
    simp only [CreateToken.submit_eq] at h
    repeat' split at h
    all_goals simp_all [isOk]

/-- Claim C10: `getBondingCurveAndAssociatedBondingCurve` returns an error, and
no address pair, exactly when the program-derived-address search for the seeds
"bonding-curve" and the mint bytes under `pumpidl.ProgramID` fails or the
associated-token-address derivation for that address and the mint fails;
otherwise it returns that program-derived address as `BondingCurve` and the
associated token address of (`BondingCurve`, mint) as `AssociatedBondingCurve`.
It always returns, and its whole run is the same for any value of the package
variables, in particular before and after `SetDevnetMode`. -/
theorem getBondingCurveAndAssociatedBondingCurve_spec (env : Env) (g : Globals)
    (mint : PublicKey) :
    ((∃ err, (getBondingCurveAndAssociatedBondingCurve env g mint).outcome =
          .value (.error err)) ↔
        (isOk (env.FindProgramAddress [bondingCurveSeed, mint.Bytes] env.ProgramID) = false ∨
          ∃ bondingCurve bump,
            env.FindProgramAddress [bondingCurveSeed, mint.Bytes] env.ProgramID =
              .ok (bondingCurve, bump) ∧
            isOk (env.FindAssociatedTokenAddress bondingCurve mint) = false)) ∧
      (∀ bondingCurve bump associatedBondingCurve bump2,
        env.FindProgramAddress [bondingCurveSeed, mint.Bytes] env.ProgramID =
            .ok (bondingCurve, bump) →
          env.FindAssociatedTokenAddress bondingCurve mint =
            .ok (associatedBondingCurve, bump2) →
          (getBondingCurveAndAssociatedBondingCurve env g mint).outcome =
            .value (.ok ⟨bondingCurve, associatedBondingCurve⟩)) ∧
      ((∃ err, (getBondingCurveAndAssociatedBondingCurve env g mint).outcome =
          .value (.error err)) ∨
        ∃ keys, (getBondingCurveAndAssociatedBondingCurve env g mint).outcome =
          .value (.ok keys)) ∧
      (∀ g2, getBondingCurveAndAssociatedBondingCurve env g2 mint =
        getBondingCurveAndAssociatedBondingCurve env g mint) ∧
      getBondingCurveAndAssociatedBondingCurve env (SetDevnetMode g) mint =
        getBondingCurveAndAssociatedBondingCurve env g mint ∧
      bondingCurveSeed = [98, 111, 110, 100, 105, 110, 103, 45, 99, 117, 114, 118, 101] := by
  simp only [getBondingCurveAndAssociatedBondingCurve_eq]
  refine ⟨?_, ?_, ?_, ?_, ?_, ?_⟩
  · repeat' split
    all_goals simp_all [isOk]
  · intro bc b abc b2 h1 h2
    simp [h1, h2]
  · repeat' split
    all_goals simp_all
  · intro g2
    trivial
  · trivial
  · decide

end Pump
